import Mathlib

/-!
Verification development for the invoice-processor repository (`src/app.py`).

The Python source is shallowly embedded:

* Python decimal values produced by `float(...)` on matched numeric substrings
  are modelled exactly as rationals (`ℚ`);
* the regular expressions of `InvoiceExtractor` are embedded as data
  (`Regex`) and executed by a backtracking engine (`reMatch` / `reSearch`)
  with Python `re` semantics: leftmost match, greedy / lazy single-character
  quantifiers with backtracking, numbered capture groups;
* an uncaught Python `ValueError` is modelled as `Except.error ()`;
* ASCII character classes mirror Python's `\s`, `\d`, `.`, `[A-Z]`, etc.
-/

/-- Python whitespace for `\s`, `str.strip()` and `str.split()` (ASCII range:
space, tab, newline, carriage return, vertical tab, form feed). -/
def pySpace (c : Char) : Bool :=
  c == ' ' || c == '\t' || c == '\n' || c == '\r' || c == '\x0b' || c == '\x0c'

/-- Model of Python `str.strip()`: drop whitespace at both ends. -/
def pyStrip (s : String) : String :=
  (((s.toList.dropWhile pySpace).reverse.dropWhile pySpace).reverse).asString

/-- Model of Python `str.upper()` (ASCII uppercasing). -/
def pyUpper (s : String) : String :=
  (s.toList.map Char.toUpper).asString

/-- `leadsWith pat s` : the character list `pat` is a prefix of `s`. -/
def leadsWith : List Char → List Char → Bool
  | [], _ => true
  | _ :: _, [] => false
  | p :: ps, c :: cs => p == c && leadsWith ps cs

/-- `hasSubAux s pat` : `pat` occurs as a contiguous sublist of `s`. -/
def hasSubAux : List Char → List Char → Bool
  | s, pat =>
    leadsWith pat s ||
      (match s with
       | [] => false
       | _ :: rest => hasSubAux rest pat)

/-- Model of Python's substring test `pat in s`. -/
def hasSub (s pat : String) : Bool :=
  hasSubAux s.toList pat.toList

/-- Model of Python `s.replace(",", "")`. -/
def stripCommas (s : String) : String :=
  (s.toList.filter (fun c => c != ',')).asString

/-- Numeric value of a digit list, most significant first. -/
def digitsValN (cs : List Char) : Nat :=
  cs.foldl (fun a c => a * 10 + (c.toNat - 48)) 0

/-!
Python float arithmetic on the parsed decimal values is modelled exactly on
`ℚ`.  The operations are written with the kernel-reducible smart constructor
`mkRat` rather than the `@[irreducible]` field operations of `ℚ`, so that the
embedding stays evaluable; the bridge lemmas `rAdd_eq`, `rSub_eq`, `rMul_eq`,
`rDiv_eq`, `pyAbs_eq` and `pyMax_eq` below identify them with the standard
operations.
-/

/-- Addition on decimal values (Python `+`). -/
def rAdd (a b : ℚ) : ℚ := mkRat (a.num * b.den + b.num * a.den) (a.den * b.den)

/-- Subtraction on decimal values (Python `-`). -/
def rSub (a b : ℚ) : ℚ := mkRat (a.num * b.den - b.num * a.den) (a.den * b.den)

/-- Multiplication on decimal values (Python `*`). -/
def rMul (a b : ℚ) : ℚ := mkRat (a.num * b.num) (a.den * b.den)

/-- Division on decimal values (Python `/`; never applied to a zero divisor
in `app.py` — the one division is guarded by `total_incl > 0`). -/
def rDiv (a b : ℚ) : ℚ := Rat.divInt (a.num * b.den) (a.den * b.num)

/-- Python built-in `abs(...)`. -/
def pyAbs (q : ℚ) : ℚ := mkRat (if q.num < 0 then -q.num else q.num) q.den

/-- Python built-in `max(...)` of two values. -/
def pyMax (a b : ℚ) : ℚ := if a < b then b else a

/-- Model of Python `float(...)` restricted to the strings that can reach it
in `app.py`: the comma-stripped content of a group matched by
`[\d,]+\.?\d*` (or `\d+`), i.e. digits, optionally a single dot, then
digits.  `float("")` and `float(".")` raise `ValueError`, modelled as
`none`; otherwise the exact decimal value is returned. -/
def pyFloat (s : String) : Option ℚ :=
  let cs := s.toList
  let ip := cs.takeWhile Char.isDigit
  let rest := cs.dropWhile Char.isDigit
  match rest with
  | [] => if ip.isEmpty then none else some (mkRat (digitsValN ip) 1)
  | c :: frac =>
    if c == '.' && frac.all Char.isDigit && !(ip.isEmpty && frac.isEmpty) then
      some (mkRat (digitsValN (ip ++ frac)) (10 ^ frac.length))
    else none

/-- Capture groups of a regex match: group index paired with matched text. -/
abbrev Caps := List (Nat × String)

/-- Embedded regular expressions.  Quantifiers (`rep`) apply to a single
character class, which covers every quantified atom in `app.py`'s patterns.
`rep p lo hi greedy` is `p{lo,}` when `hi = none`, `p{lo,hi}` otherwise;
`greedy = false` gives the lazy variant (`+?`). -/
inductive Regex where
  | eps
  | ch (p : Char → Bool)
  | rep (p : Char → Bool) (lo : Nat) (hi : Option Nat) (greedy : Bool)
  | cat (a b : Regex)
  | grp (i : Nat) (a : Regex)
  | endA

/-- Consume exactly `n` characters satisfying `p`, then continue. -/
def repExact (p : Char → Bool) : Nat → List Char → (List Char → Option Caps) → Option Caps
  | 0, s, k => k s
  | _ + 1, [], _ => none
  | n + 1, c :: s, k => if p c then repExact p n s k else none

/-- Optional part of a quantifier: consume up to `hi` further characters
satisfying `p`; `greedy` tries longer matches first, lazy tries shorter. -/
def repOpt (p : Char → Bool) (hi : Option Nat) (greedy : Bool) :
    Nat → List Char → (List Char → Option Caps) → Option Caps
  | _, [], k => k []
  | used, c :: s, k =>
    let more := p c && (match hi with | none => true | some h => decide (used < h))
    if greedy then
      (if more then repOpt p hi greedy (used + 1) s k else none) <|> k (c :: s)
    else
      k (c :: s) <|> (if more then repOpt p hi greedy (used + 1) s k else none)

/-- Backtracking matcher in continuation-passing style: try to match `r`
against a prefix of `s` with captures `caps`; on each candidate match call
`k` with the remaining input and updated captures.  Preference order is
Python's: greedy quantifiers prefer longer, lazy prefer shorter, earlier
quantifiers dominate. -/
def reMatch : Regex → List Char → Caps → (List Char → Caps → Option Caps) → Option Caps
  | .eps, s, caps, k => k s caps
  | .ch _, [], _, _ => none
  | .ch p, c :: s, caps, k => if p c then k s caps else none
  | .endA, s, caps, k => if s.isEmpty then k s caps else none
  | .rep p lo hi g, s, caps, k =>
    repExact p lo s (fun s1 =>
      repOpt p (hi.map (fun h => h - lo)) g 0 s1 (fun s2 => k s2 caps))
  | .cat a b, s, caps, k => reMatch a s caps (fun s1 c1 => reMatch b s1 c1 k)
  | .grp i a, s, caps, k =>
    reMatch a s caps (fun s1 c1 =>
      k s1 (c1 ++ [(i, ((s.take (s.length - s1.length)).asString))]))

/-- Model of Python `re.match(r, s)`: anchored at the start, returns captures
of the first match in preference order, `none` when there is no match. -/
def reMatchAt (r : Regex) (s : List Char) : Option Caps :=
  reMatch r s [] (fun _ caps => some caps)

/-- Model of Python `re.search(r, s)`: try successive start positions left to
right (leftmost match wins). -/
def reSearch (r : Regex) : List Char → Option Caps
  | [] => reMatchAt r []
  | c :: rest => reMatchAt r (c :: rest) <|> reSearch r rest

/-- Matched text of group `i` (all groups in `app.py`'s patterns are
mandatory, so a successful match always binds them). -/
def capGet (caps : Caps) (i : Nat) : String :=
  ((caps.find? (fun x => x.1 == i)).map (fun x => x.2)).getD ""

/-- Literal string as a regex. -/
def rlit (s : String) : Regex :=
  s.toList.foldr (fun c r => .cat (.ch (fun x => x == c)) r) .eps

/-- Sequence of regexes. -/
def rseq (rs : List Regex) : Regex :=
  rs.foldr .cat .eps

/-- Character class `[\d,]`. -/
def digitComma (c : Char) : Bool := c.isDigit || c == ','

/-- Character class `[A-Z]`. -/
def upperAZ (c : Char) : Bool := 'A' ≤ c && c ≤ 'Z'

/-- Character class `[A-Z\s:]`. -/
def upperSpaceColon (c : Char) : Bool := upperAZ c || pySpace c || c == ':'

/-- Character class `[A-Z0-9,]`. -/
def upperDigitComma (c : Char) : Bool := upperAZ c || c.isDigit || c == ','

/-- The numeric-field shape `[\d,]+\.?\d*` used throughout `app.py`. -/
def numRe : Regex :=
  rseq [.rep digitComma 1 none true,
        .rep (fun c => c == '.') 0 (some 1) true,
        .rep Char.isDigit 0 none true]

/-- `\s+` -/
def spacesRe : Regex := .rep pySpace 1 none true

/-- Pattern 1 of `extract_line_items` (line 90):
`^(\S+)\s+(.+?)\s+([\d,]+\.?\d*)\s+([\d,]+\.?\d*)\s+([\d,]+\.?\d*)\s+([\d,]+\.?\d*)$`. -/
def generalRe : Regex :=
  rseq [.grp 1 (.rep (fun c => !(pySpace c)) 1 none true),
        spacesRe,
        .grp 2 (.rep (fun c => c != '\n') 1 none false),
        spacesRe, .grp 3 numRe,
        spacesRe, .grp 4 numRe,
        spacesRe, .grp 5 numRe,
        spacesRe, .grp 6 numRe,
        .endA]

/-- Pattern 2 of `extract_line_items` (line 122):
`^([A-Z]+\s*:\s*EL)\s+([A-Z\s:]+)\s+([\d,]+\.?\d*)\s+([\d,]+\.?\d*)\s+([\d,]+\.?\d*)$`. -/
def expressFuelRe : Regex :=
  rseq [.grp 1 (rseq [.rep upperAZ 1 none true, .rep pySpace 0 none true,
                      rlit ":", .rep pySpace 0 none true, rlit "EL"]),
        spacesRe,
        .grp 2 (.rep upperSpaceColon 1 none true),
        spacesRe, .grp 3 numRe,
        spacesRe, .grp 4 numRe,
        spacesRe, .grp 5 numRe,
        .endA]

/-- Pattern 2b of `extract_line_items` (line 149):
`^([A-Z]+\s*:\s*E[L]?)\s+([A-Z0-9,]+)\s+([\d,]+\.?\d*)\s+([\d,]+\.?\d*)\s+([\d,]+\.?\d*)$`. -/
def expressAltRe : Regex :=
  rseq [.grp 1 (rseq [.rep upperAZ 1 none true, .rep pySpace 0 none true,
                      rlit ":", .rep pySpace 0 none true, rlit "E",
                      .rep (fun c => c == 'L') 0 (some 1) true]),
        spacesRe,
        .grp 2 (.rep upperDigitComma 1 none true),
        spacesRe, .grp 3 numRe,
        spacesRe, .grp 4 numRe,
        spacesRe, .grp 5 numRe,
        .endA]

/-- Pattern 3 of `extract_line_items` (line 182), used with `re.search`:
`([A-Z\s:]+)\s+([\d,]+\.?\d*)\s+([\d,]+\.?\d*)\s+([\d,]+\.?\d*)`. -/
def legacyRe : Regex :=
  rseq [.grp 1 (.rep upperSpaceColon 1 none true),
        spacesRe, .grp 2 numRe,
        spacesRe, .grp 3 numRe,
        spacesRe, .grp 4 numRe]

/-- `parse_invoice_data` date pattern (line 38): `(\d{2}-\d{2}-\d{4})`. -/
def dateRe : Regex :=
  .grp 1 (rseq [.rep Char.isDigit 2 (some 2) true, rlit "-",
                .rep Char.isDigit 2 (some 2) true, rlit "-",
                .rep Char.isDigit 4 (some 4) true])

/-- `parse_invoice_data` reference pattern (line 43): `INV(\d+)`. -/
def refRe : Regex :=
  rseq [rlit "INV", .grp 1 (.rep Char.isDigit 1 none true)]

/-- `parse_invoice_data` total pattern (lines 48-49):
`Total \(Excl\)\s+([\d,]+\.?\d*)` (and the `Incl` variant), built from the
anchor text. -/
def totalRe (anchor : String) : Regex :=
  rseq [rlit anchor, spacesRe, .grp 1 numRe]

/-- A line item as built by `extract_line_items` (the Python dict with keys
`item_code, description, quantity, unit, price, tax, total`). -/
structure LineItem where
  item_code : String
  description : String
  quantity : ℚ
  unit : String
  price : ℚ
  tax : ℚ
  total : ℚ
deriving DecidableEq, Repr

/-- Outcome of one tier's attempt on one line: `emit` (matched and validated,
the loop appends the item and `continue`s), `fall` (no match, failed
validation, or a `ValueError` caught by tier 1's `try`/`except`: control
falls to the next tier), `raise` (an uncaught `ValueError`). -/
inductive TierRes where
  | emit (item : LineItem)
  | fall
  | raise
deriving DecidableEq, Repr

/-- Captured groups of pattern 1 (`general_pattern`) on a line, via
`re.match`. -/
def generalGroups (line : String) :
    Option (String × String × String × String × String × String) :=
  (reMatchAt generalRe line.toList).map (fun caps =>
    (capGet caps 1, capGet caps 2, capGet caps 3,
     capGet caps 4, capGet caps 5, capGet caps 6))

/-- Captured groups of pattern 2 (`express_fuel_pattern`) via `re.match`. -/
def exprGroups (line : String) :
    Option (String × String × String × String × String) :=
  (reMatchAt expressFuelRe line.toList).map (fun caps =>
    (capGet caps 1, capGet caps 2, capGet caps 3, capGet caps 4, capGet caps 5))

/-- Captured groups of pattern 2b (`express_alt_pattern`) via `re.match`. -/
def exprAltGroups (line : String) :
    Option (String × String × String × String × String) :=
  (reMatchAt expressAltRe line.toList).map (fun caps =>
    (capGet caps 1, capGet caps 2, capGet caps 3, capGet caps 4, capGet caps 5))

/-- Captured groups of pattern 3 (`legacy_fuel_pattern`) via `re.search`. -/
def legacyGroups (line : String) :
    Option (String × String × String × String) :=
  (reSearch legacyRe line.toList).map (fun caps =>
    (capGet caps 1, capGet caps 2, capGet caps 3, capGet caps 4))

/-- Tier 1, `app.py` lines 88-117: general tabular format.  The four
`float` conversions sit inside `try`/`except ValueError: pass`, so a
conversion failure falls through instead of raising.  Validation (line 104):
`abs(total - expected_total) < expected_total * 0.1`. -/
def tier1 (line : String) : TierRes :=
  match generalGroups line with
  | none => .fall
  | some (code, desc, g3, g4, g5, g6) =>
    match pyFloat (stripCommas g3), pyFloat (stripCommas g4),
          pyFloat (stripCommas g5), pyFloat (stripCommas g6) with
    | some qty, some price, some tax, some total =>
      if pyAbs (rSub total (rMul qty price)) < rMul (rMul qty price) (mkRat 1 10) then
        .emit ⟨code, pyStrip desc, qty, "", price, tax, total⟩
      else .fall
    | _, _, _, _ => .fall

/-- Tier 2, `app.py` lines 119-144: primary Express fuel layout.  The three
`float` conversions are NOT guarded, so a conversion failure raises.
Validation (line 134): `abs(calculated_total - total) < max(total * 0.01, 0.01)`. -/
def tier2 (line : String) : TierRes :=
  match exprGroups line with
  | none => .fall
  | some (g1, g2, g3, g4, g5) =>
    match pyFloat (stripCommas g3), pyFloat (stripCommas g4), pyFloat (stripCommas g5) with
    | some quantity, some price, some total =>
      if pyAbs (rSub (rMul quantity price) total) < pyMax (rMul total (mkRat 1 100)) (mkRat 1 100) then
        .emit ⟨pyStrip g1, pyStrip g2, quantity, "", price, 0, total⟩
      else .fall
    | _, _, _ => .raise

/-- Tier 2b, `app.py` lines 146-179: alternate Express fuel layout with item
numbers; the description is synthesized from the item code (lines 160-165).
`float` conversions are NOT guarded.  Same validation as tier 2. -/
def tier2b (line : String) : TierRes :=
  match exprAltGroups line with
  | none => .fall
  | some (g1, _g2, g3, g4, g5) =>
    let item_code := pyStrip g1
    match pyFloat (stripCommas g3), pyFloat (stripCommas g4), pyFloat (stripCommas g5) with
    | some quantity, some price, some total =>
      let description :=
        if hasSub item_code "LSD" then "LOW SULPHUR DIESEL : EL"
        else if hasSub item_code "PETROL" then "PETROL : EL"
        else item_code
      if pyAbs (rSub (rMul quantity price) total) < pyMax (rMul total (mkRat 1 100)) (mkRat 1 100) then
        .emit ⟨item_code, description, quantity, "", price, 0, total⟩
      else .fall
    | _, _, _ => .raise

/-- The fuel-keyword gate of tier 3 (`app.py` line 192):
`any(fuel in desc.upper() for fuel in ['DIESEL', 'PETROL', 'PARAFFIN', 'EL'])`. -/
def hasFuelKeyword (desc : String) : Bool :=
  let u := pyUpper desc
  hasSub u "DIESEL" || hasSub u "PETROL" || hasSub u "PARAFFIN" || hasSub u "EL"

/-- Tier 3, `app.py` lines 181-216: legacy fallback.  The three `float`
conversions (lines 187-189) run BEFORE the keyword gate and are NOT guarded,
so a conversion failure raises even when the gate would fail.  When the gate
passes, the three orderings of `(val1, val2, val3)` are tried in the source's
order (lines 195-205), defaulting to `(val1, val2, val3)`; the item is always
appended. -/
def tier3 (line : String) : TierRes :=
  match legacyGroups line with
  | none => .fall
  | some (g1, g2, g3, g4) =>
    let desc := pyStrip g1
    match pyFloat (stripCommas g2), pyFloat (stripCommas g3), pyFloat (stripCommas g4) with
    | some val1, some val2, some val3 =>
      if hasFuelKeyword desc then
        if pyAbs (rSub val3 (rMul val1 val2)) < rMul val3 (mkRat 1 100) then
          .emit ⟨"", desc, val1, "", val2, 0, val3⟩
        else if pyAbs (rSub val1 (rMul val2 val3)) < rMul val1 (mkRat 1 100) then
          .emit ⟨"", desc, val2, "", val3, 0, val1⟩
        else if pyAbs (rSub val2 (rMul val1 val3)) < rMul val2 (mkRat 1 100) then
          .emit ⟨"", desc, val1, "", val3, 0, val2⟩
        else
          .emit ⟨"", desc, val1, "", val2, 0, val3⟩
      else .fall
    | _, _, _ => .raise

/-- Run the tier results in order: the first `emit` wins, `fall` moves on,
`raise` propagates; when every tier falls the line contributes nothing. -/
def stepTiers : List TierRes → Except Unit (Option LineItem)
  | [] => .ok none
  | .emit it :: _ => .ok (some it)
  | .fall :: rest => stepTiers rest
  | .raise :: _ => .error ()

/-- One iteration of the line loop of `extract_line_items` (lines 83-216):
strip the line, skip blank and header lines, then try the four tiers in
order. -/
def processLine (raw : String) : Except Unit (Option LineItem) :=
  let line := pyStrip raw
  if line = "" ∨ hasSub line "Item Code" = true ∨ hasSub line "Item Description" = true then
    .ok none
  else
    stepTiers [tier1 line, tier2 line, tier2b line, tier3 line]

/-- The line loop: an uncaught `ValueError` aborts the whole loop and
propagates; otherwise emitted items accumulate in line order. -/
def extractLines : List String → Except Unit (List LineItem)
  | [] => .ok []
  | l :: ls =>
    match processLine l with
    | .error e => .error e
    | .ok o =>
      match extractLines ls with
      | .error e => .error e
      | .ok items => .ok (o.toList ++ items)

/-- Model of Python `text.split('\n')`. -/
def splitNl : List Char → List Char → List String
  | [], acc => [acc.reverse.asString]
  | c :: rest, acc =>
    if c = '\n' then acc.reverse.asString :: splitNl rest []
    else splitNl rest (c :: acc)

/-- `InvoiceExtractor.extract_line_items` (`app.py` lines 76-218).
`Except.error ()` models an uncaught `ValueError` escaping the method. -/
def extract_line_items (text : String) : Except Unit (List LineItem) :=
  extractLines (splitNl text.toList [])

/-- The invoice record dict built by `parse_invoice_data` (lines 61-68). -/
structure InvoiceRecord where
  filename : String
  date : String
  our_reference : String
  total_excl : ℚ
  total_incl : ℚ
  items : List LineItem
deriving DecidableEq, Repr

/-- Date field (lines 38-40): first `re.search` match of `(\d{2}-\d{2}-\d{4})`,
else the empty string. -/
def searchDate (text : String) : String :=
  match reSearch dateRe text.toList with
  | some caps => capGet caps 1
  | none => ""

/-- Reference field (lines 43-45): `INV` plus the digits of the first
`INV(\d+)` match, else the empty string. -/
def searchRef (text : String) : String :=
  match reSearch refRe text.toList with
  | some caps => "INV" ++ capGet caps 1
  | none => ""

/-- Declared total after an anchor (lines 48-55): `float` of the
comma-stripped first group when the search matches, `0` when it does not;
`none` models a `ValueError` from `float`. -/
def searchTotal (anchor text : String) : Option ℚ :=
  match reSearch (totalRe anchor) text.toList with
  | some caps => pyFloat (stripCommas (capGet caps 1))
  | none => some 0

/-- `InvoiceExtractor.parse_invoice_data` (lines 34-74): header fields plus
line items; the surrounding `try`/`except` turns any uncaught error into
`None`. -/
def parse_invoice_data (text filename : String) : Option InvoiceRecord :=
  match searchTotal "Total (Excl)" text, searchTotal "Total (Incl)" text,
        extract_line_items text with
  | some te, some ti, .ok items =>
    some ⟨filename, searchDate text, searchRef text, te, ti, items⟩
  | _, _, _ => none

/-- One cell of the export row: the source mixes strings and numbers in the
same dict, and empty slots hold the empty string. -/
inductive Cell where
  | str (s : String)
  | num (q : ℚ)
deriving DecidableEq, Repr

/-- The seven columns of one item slot of the export row. -/
structure ItemSlot where
  code : Cell
  description : Cell
  quantity : Cell
  unit : Cell
  price : Cell
  tax : Cell
  total : Cell
deriving DecidableEq, Repr

/-- `total_expected` (line 243 and line 377):
`sum(item['total'] + item.get('tax', 0) for item in items)`. -/
def totalExpected (items : List LineItem) : ℚ :=
  items.foldl (fun acc it => rAdd acc (rAdd it.total it.tax)) 0

/-- Slot `i` (0-based) of the export row (`app.py` lines 255-272): populated
from `items[i]` when present, otherwise every column is the empty string. -/
def slotOf (items : List LineItem) (i : Nat) : ItemSlot :=
  match items.get? i with
  | some it =>
    ⟨.str it.item_code, .str it.description, .num it.quantity, .str it.unit,
     .num it.price, .num it.tax, .num it.total⟩
  | none => ⟨.str "", .str "", .str "", .str "", .str "", .str "", .str ""⟩

/-- One export row (`app.py` lines 246-272): five header columns plus three
item slots. -/
structure ExcelRow where
  filename : String
  date : String
  our_reference : String
  total_expected : ℚ
  total_incl : ℚ
  slot1 : ItemSlot
  slot2 : ItemSlot
  slot3 : ItemSlot
deriving DecidableEq, Repr

/-- Row construction inside `convert_to_excel_format` (lines 240-274). -/
def convert_row (inv : InvoiceRecord) : ExcelRow :=
  ⟨inv.filename, inv.date, inv.our_reference, totalExpected inv.items,
   inv.total_incl, slotOf inv.items 0, slotOf inv.items 1, slotOf inv.items 2⟩

/-- `InvoiceExtractor.convert_to_excel_format` (lines 236-276). -/
def convert_to_excel_format (data : List InvoiceRecord) : List ExcelRow :=
  data.map convert_row

/-- Reconciliation numbers computed per invoice by `debug_extraction`
(lines 376-390). -/
structure DebugInfo where
  total_expected : ℚ
  discrepancy : ℚ
  discrepancy_percent : ℚ
  items_found : Nat
deriving DecidableEq, Repr

/-- Per-invoice body of `debug_extraction` (lines 376-390):
`discrepancy = abs(total_expected - total_incl)` and
`discrepancy_percent = discrepancy / total_incl * 100 if total_incl > 0 else 0`. -/
def debug_info (inv : InvoiceRecord) : DebugInfo :=
  let total_expected := totalExpected inv.items
  let discrepancy := pyAbs (rSub total_expected inv.total_incl)
  ⟨total_expected, discrepancy,
   if 0 < inv.total_incl then rMul (rDiv discrepancy inv.total_incl) (mkRat 100 1) else 0,
   inv.items.length⟩

/-! ## Bridge lemmas: the kernel-reducible decimal operations agree with the
standard operations on `ℚ`. -/

theorem rAdd_eq (a b : ℚ) : rAdd a b = a + b := by
  have ha : ((a.den : ℚ)) ≠ 0 := by exact_mod_cast a.den_nz
  have hb : ((b.den : ℚ)) ≠ 0 := by exact_mod_cast b.den_nz
  unfold rAdd
  rw [Rat.mkRat_eq_div]
  push_cast
  conv_rhs => rw [← Rat.num_div_den a, ← Rat.num_div_den b]
  rw [div_add_div _ _ ha hb]
  congr 1
  ring

theorem rSub_eq (a b : ℚ) : rSub a b = a - b := by
  have ha : ((a.den : ℚ)) ≠ 0 := by exact_mod_cast a.den_nz
  have hb : ((b.den : ℚ)) ≠ 0 := by exact_mod_cast b.den_nz
  unfold rSub
  rw [Rat.mkRat_eq_div]
  push_cast
  conv_rhs => rw [← Rat.num_div_den a, ← Rat.num_div_den b]
  rw [div_sub_div _ _ ha hb]
  congr 1
  ring

theorem rMul_eq (a b : ℚ) : rMul a b = a * b := by
  have ha : ((a.den : ℚ)) ≠ 0 := by exact_mod_cast a.den_nz
  have hb : ((b.den : ℚ)) ≠ 0 := by exact_mod_cast b.den_nz
  unfold rMul
  rw [Rat.mkRat_eq_div]
  push_cast
  conv_rhs => rw [← Rat.num_div_den a, ← Rat.num_div_den b]
  rw [div_mul_div_comm]

theorem rDiv_eq (a b : ℚ) : rDiv a b = a / b := by
  have ha : ((a.den : ℚ)) ≠ 0 := by exact_mod_cast a.den_nz
  have hb : ((b.den : ℚ)) ≠ 0 := by exact_mod_cast b.den_nz
  unfold rDiv
  rcases eq_or_ne b 0 with rfl | hbne
  · simp [Rat.divInt_eq_div]
  · have hbn : ((b.num : ℚ)) ≠ 0 := by
      exact_mod_cast Rat.num_ne_zero.mpr hbne
    rw [Rat.divInt_eq_div]
    push_cast
    conv_rhs => rw [← Rat.num_div_den a, ← Rat.num_div_den b]
    field_simp

theorem pyAbs_eq (q : ℚ) : pyAbs q = |q| := by
  have hq : ((q.den : ℚ)) ≠ 0 := by exact_mod_cast q.den_nz
  unfold pyAbs
  rcases le_or_lt 0 q.num with h | h
  · rw [if_neg (by omega), Rat.mkRat_eq_div, Rat.num_div_den, abs_of_nonneg]
    exact_mod_cast Rat.num_nonneg.mp h
  · rw [if_pos h, Rat.mkRat_eq_div]
    push_cast
    rw [neg_div, Rat.num_div_den, abs_of_neg]
    exact_mod_cast Rat.num_neg.mp h

theorem pyMax_eq (a b : ℚ) : pyMax a b = max a b := by
  unfold pyMax
  rcases lt_or_le a b with h | h
  · rw [if_pos h, max_eq_right h.le]
  · rw [if_neg (not_lt.mpr h), max_eq_left h]

theorem mkRat_one_ten : (mkRat 1 10 : ℚ) = 1 / 10 := by
  rw [Rat.mkRat_eq_div]; norm_num

theorem mkRat_one_hundred : (mkRat 1 100 : ℚ) = 1 / 100 := by
  rw [Rat.mkRat_eq_div]; norm_num

theorem mkRat_hundred : (mkRat 100 1 : ℚ) = 100 := by
  rw [Rat.mkRat_eq_div]; norm_num

/-- The left fold of `totalExpected` started at `acc` adds `acc` to the
standard sum. -/
theorem totalExpected_aux (items : List LineItem) :
    ∀ acc : ℚ, items.foldl (fun a it => rAdd a (rAdd it.total it.tax)) acc =
      acc + ((items.map (fun it => it.total + it.tax)).sum) := by
  induction items with
  | nil => intro acc; simp
  | cons hd tl ih =>
    intro acc
    rw [List.foldl_cons, ih, rAdd_eq, rAdd_eq, List.map_cons, List.sum_cons]
    ring

/-- `totalExpected` is the sum over all items of `line_total + tax`. -/
theorem totalExpected_eq (items : List LineItem) :
    totalExpected items = ((items.map (fun it => it.total + it.tax)).sum) := by
  unfold totalExpected
  rw [totalExpected_aux, zero_add]

/-- Claim C6: for every InvoiceRecord, the reconciliation outputs satisfy
`expected_total = Σ (line_total + tax)` over all items,
`discrepancy = |expected_total - declared_total_incl|`, and
`discrepancy_percent = discrepancy / declared_total_incl * 100` when
`declared_total_incl > 0` (hence nonnegative there) and exactly `0`
otherwise, with no error raised. -/
theorem claim6_reconciliation (inv : InvoiceRecord) :
    (debug_info inv).total_expected = ((inv.items.map (fun it => it.total + it.tax)).sum)
    ∧ (debug_info inv).discrepancy = |(debug_info inv).total_expected - inv.total_incl|
    ∧ (0 < inv.total_incl →
        (debug_info inv).discrepancy_percent =
          (debug_info inv).discrepancy / inv.total_incl * 100
        ∧ 0 ≤ (debug_info inv).discrepancy_percent)
    ∧ (¬ 0 < inv.total_incl → (debug_info inv).discrepancy_percent = 0) := by
  unfold debug_info
  simp only [totalExpected_eq, pyAbs_eq, rSub_eq]
  refine ⟨trivial, trivial, fun hpos => ⟨?_, ?_⟩, fun hneg => ?_⟩
  · rw [if_pos hpos, rMul_eq, rDiv_eq, mkRat_hundred]
  · rw [if_pos hpos, rMul_eq, rDiv_eq, mkRat_hundred]
    have habs : (0 : ℚ) ≤ |((inv.items.map (fun it => it.total + it.tax)).sum) - inv.total_incl| :=
      abs_nonneg _
    positivity
  · rw [if_neg hneg]

/-- Witness for C6: a record with one item (total 500, tax 50) and declared
total 600 satisfies the positive-denominator branch of the claim. -/
theorem claim6_wit :
    (0 : ℚ) < 600
    ∧ (debug_info ⟨"", "", "", 0, 600, [⟨"", "X", 1, "", 500, 50, 500⟩]⟩).discrepancy_percent =
        (debug_info ⟨"", "", "", 0, 600, [⟨"", "X", 1, "", 500, 50, 500⟩]⟩).discrepancy / 600 * 100
    ∧ 0 ≤ (debug_info ⟨"", "", "", 0, 600, [⟨"", "X", 1, "", 500, 50, 500⟩]⟩).discrepancy_percent := by
  have h := (claim6_reconciliation ⟨"", "", "", 0, 600, [⟨"", "X", 1, "", 500, 50, 500⟩]⟩).2.2.1
    (by norm_num)
  exact ⟨by norm_num, h.1, h.2⟩

/-- Claim C7: the tabular projection fills slot `i` (1-indexed, up to 3) from
`items[i-1]` when present and with empty strings otherwise, and the row's
Total Expected sums `line_total + tax` over ALL items, not just the first 3. -/
theorem claim7_projection (inv : InvoiceRecord) :
    (convert_row inv).slot1 = slotOf inv.items 0
    ∧ (convert_row inv).slot2 = slotOf inv.items 1
    ∧ (convert_row inv).slot3 = slotOf inv.items 2
    ∧ (∀ i : Nat, ∀ h : i < inv.items.length,
        slotOf inv.items i =
          ⟨.str (inv.items.get ⟨i, h⟩).item_code, .str (inv.items.get ⟨i, h⟩).description,
           .num (inv.items.get ⟨i, h⟩).quantity, .str (inv.items.get ⟨i, h⟩).unit,
           .num (inv.items.get ⟨i, h⟩).price, .num (inv.items.get ⟨i, h⟩).tax,
           .num (inv.items.get ⟨i, h⟩).total⟩)
    ∧ (∀ i : Nat, inv.items.length ≤ i →
        slotOf inv.items i = ⟨.str "", .str "", .str "", .str "", .str "", .str "", .str ""⟩)
    ∧ (convert_row inv).total_expected = ((inv.items.map (fun it => it.total + it.tax)).sum) := by
  refine ⟨rfl, rfl, rfl, fun i h => ?_, fun i h => ?_, totalExpected_eq inv.items⟩
  · unfold slotOf
    rw [List.get?_eq_get h]
  · unfold slotOf
    rw [List.get?_eq_none.mpr h]

/-- Witness for C7: with a single item, slot 3 is all empty strings. -/
theorem claim7_wit :
    slotOf [⟨"A1", "W", 1, "", 2, 0, 2⟩] 2 =
      ⟨.str "", .str "", .str "", .str "", .str "", .str "", .str ""⟩ :=
  (claim7_projection ⟨"f", "", "", 0, 0, [⟨"A1", "W", 1, "", 2, 0, 2⟩]⟩).2.2.2.2.1 2 (by norm_num)

/-- An item delivered by `stepTiers` comes from an `emit` in the list. -/
theorem stepTiers_ok_some (ts : List TierRes) (it : LineItem)
    (h : stepTiers ts = .ok (some it)) : TierRes.emit it ∈ ts := by
  induction ts with
  | nil => simp [stepTiers] at h
  | cons t rest ih =>
    cases t with
    | emit j =>
      simp only [stepTiers, Except.ok.injEq, Option.some.injEq] at h
      subst h
      exact List.mem_cons_self _ _
    | fall =>
      exact List.mem_cons_of_mem _ (ih h)
    | raise =>
      simp [stepTiers] at h

/-- Tier 1 only emits items whose unit field is the empty string. -/
theorem tier1_emit_unit (line : String) (it : LineItem)
    (h : tier1 line = .emit it) : it.unit = "" := by
  unfold tier1 at h
  repeat' split at h
  all_goals simp_all [TierRes.emit.injEq]
  all_goals subst h; rfl

/-- Tier 2 only emits items whose unit field is the empty string. -/
theorem tier2_emit_unit (line : String) (it : LineItem)
    (h : tier2 line = .emit it) : it.unit = "" := by
  unfold tier2 at h
  repeat' split at h
  all_goals simp_all [TierRes.emit.injEq]
  all_goals subst h; rfl

/-- Tier 2b only emits items whose unit field is the empty string. -/
theorem tier2b_emit_unit (line : String) (it : LineItem)
    (h : tier2b line = .emit it) : it.unit = "" := by
  unfold tier2b at h
  repeat' split at h
  all_goals simp_all [TierRes.emit.injEq]
  all_goals subst h; rfl

/-- Tier 3 only emits items whose unit field is the empty string. -/
theorem tier3_emit_unit (line : String) (it : LineItem)
    (h : tier3 line = .emit it) : it.unit = "" := by
  unfold tier3 at h
  repeat' split at h
  all_goals
    first
      | (rw [ite_eq_iff] at h
         rcases h with ⟨hc, he⟩ | ⟨hc, he⟩
         · injection he with he2
           subst he2
           rfl
         · exact absurd he (by simp))
      | simp_all

/-- Any item produced by the line loop for a single line has empty unit. -/
theorem processLine_unit (l : String) (it : LineItem)
    (h : processLine l = .ok (some it)) : it.unit = "" := by
  simp only [processLine] at h
  split at h
  · simp at h
  · have hm := stepTiers_ok_some _ _ h
    simp only [List.mem_cons, List.mem_singleton, List.not_mem_nil, or_false] at hm
    rcases hm with h1 | h2 | h2b | h3
    · exact tier1_emit_unit _ _ h1.symm
    · exact tier2_emit_unit _ _ h2.symm
    · exact tier2b_emit_unit _ _ h2b.symm
    · exact tier3_emit_unit _ _ h3.symm

/-- Every item in a successful run of the line loop has empty unit. -/
theorem extractLines_unit (ls : List String) (items : List LineItem)
    (h : extractLines ls = .ok items) : ∀ it ∈ items, it.unit = "" := by
  induction ls generalizing items with
  | nil =>
    simp only [extractLines, Except.ok.injEq] at h
    subst h
    intro it hit
    simp at hit
  | cons l rest ih =>
    unfold extractLines at h
    rcases hp : processLine l with e | o
    · rw [hp] at h
      simp at h
    · rw [hp] at h
      rcases hr : extractLines rest with e2 | items2
      · rw [hr] at h
        simp at h
      · rw [hr] at h
        simp only [Except.ok.injEq] at h
        subst h
        intro it hit
        rcases List.mem_append.mp hit with hin | hin
        · rcases o with _ | j
          · simp at hin
          · simp only [Option.toList_some, List.mem_singleton] at hin
            subst hin
            exact processLine_unit _ _ hp
        · exact ih _ hr it hin

/-- Claim C10: every LineItem produced by the matcher tiers has an empty
unit field, and hence every populated or empty export slot has the empty
string in its Unit column. -/
theorem claim10_unit (text : String) (items : List LineItem)
    (h : extract_line_items text = .ok items) :
    (∀ it ∈ items, it.unit = "") ∧ (∀ i : Nat, (slotOf items i).unit = Cell.str "") := by
  have hu := extractLines_unit _ _ h
  refine ⟨hu, fun i => ?_⟩
  unfold slotOf
  rcases hg : items.get? i with _ | it
  · rfl
  · have hmem : it ∈ items := List.get?_mem hg
    simp [hu it hmem]

/-- Witness for C10 at a concrete extraction. -/
theorem claim10_wit :
    (slotOf [⟨"A100", "Widget Assembly", mkRat 10 1, "", mkRat 500 100, mkRat 150 100,
      mkRat 5150 100⟩] 0).unit = Cell.str "" :=
  (claim10_unit "A100 Widget Assembly 10 5.00 1.50 51.50"
    [⟨"A100", "Widget Assembly", mkRat 10 1, "", mkRat 500 100, mkRat 150 100, mkRat 5150 100⟩]
    rfl).2 0

/-- Claim C9: when the general tier's parsed quantity and price multiply to
zero, the strict tolerance check `abs(total - qty*price) < 0.1 * (qty*price)`
is unsatisfiable, so the general tier never emits — it falls through. -/
theorem claim9_zero_product (line c d g3 g4 g5 g6 : String) (q p tx tt : ℚ)
    (hm : generalGroups line = some (c, d, g3, g4, g5, g6))
    (hq : pyFloat (stripCommas g3) = some q)
    (hp : pyFloat (stripCommas g4) = some p)
    (htx : pyFloat (stripCommas g5) = some tx)
    (htt : pyFloat (stripCommas g6) = some tt)
    (hqp : q * p = 0) :
    tier1 line = TierRes.fall := by
  unfold tier1
  simp only [hm, hq, hp, htx, htt]
  have hcond : ¬ pyAbs (rSub tt (rMul q p)) < rMul (rMul q p) (mkRat 1 10) := by
    rw [pyAbs_eq, rSub_eq, rMul_eq, rMul_eq, hqp, zero_mul, sub_zero]
    exact not_lt.mpr (abs_nonneg tt)
  rw [if_neg hcond]

/-- Witness for C9: a six-field line with quantity 0 and total 0. -/
theorem claim9_wit : tier1 "X Y 0 5.00 1.50 0" = TierRes.fall :=
  claim9_zero_product "X Y 0 5.00 1.50 0" "X" "Y" "0" "5.00" "1.50" "0"
    (mkRat 0 1) (mkRat 500 100) (mkRat 150 100) (mkRat 0 1)
    rfl rfl rfl rfl rfl (by norm_num [Rat.mkRat_eq_div])

/-- Counterexample for C1: a numeric conversion failure inside the primary
fuel tier's match (captured groups `",,"` comma-strip to the empty string)
escapes `extract_line_items`, so the extraction CAN raise. -/
theorem claim1_cex : extract_line_items "LSD : EL FOO ,, ,, ,," = .error () := rfl

/-- Claim C1 (amended): a numeric conversion failure inside the GENERAL
tabular tier's tentative match aborts only that tier's attempt and falls
through to the next tier — the general tier never raises; in the fuel and
legacy tiers such a failure propagates out of `extract_line_items` (see the
counterexample). -/
theorem claim1_general_only :
    (∀ line : String, tier1 line ≠ TierRes.raise)
    ∧ (∀ (line c d g3 g4 g5 g6 : String),
        generalGroups line = some (c, d, g3, g4, g5, g6) →
        (pyFloat (stripCommas g3) = none ∨ pyFloat (stripCommas g4) = none ∨
         pyFloat (stripCommas g5) = none ∨ pyFloat (stripCommas g6) = none) →
        tier1 line = TierRes.fall) := by
  constructor
  · intro line h
    unfold tier1 at h
    repeat' split at h
    all_goals simp_all
  · intro line c d g3 g4 g5 g6 hm hnone
    unfold tier1
    simp only [hm]
    rcases e3 : pyFloat (stripCommas g3) with _ | q3 <;>
      rcases e4 : pyFloat (stripCommas g4) with _ | q4 <;>
        rcases e5 : pyFloat (stripCommas g5) with _ | q5 <;>
          rcases e6 : pyFloat (stripCommas g6) with _ | q6 <;>
            simp_all

/-- Witness for C1's amended statement: the general pattern matches
`"A B ,, ,, ,, ,,"` but every numeric group comma-strips to `""`, and the
tier falls through instead of raising. -/
theorem claim1_wit : tier1 "A B ,, ,, ,, ,," = TierRes.fall :=
  claim1_general_only.2 "A B ,, ,, ,, ,," "A" "B" ",," ",," ",," ",," rfl (Or.inl rfl)

/-- On a stripped, non-skipped line, `processLine` is exactly the tier
cascade. -/
theorem processLine_eq (line : String)
    (htrim : pyStrip line = line)
    (hne : ¬ line = "")
    (hic : hasSub line "Item Code" = false)
    (hid : hasSub line "Item Description" = false) :
    processLine line = stepTiers [tier1 line, tier2 line, tier2b line, tier3 line] := by
  have hnot : ¬ (line = "" ∨ hasSub line "Item Code" = true ∨
      hasSub line "Item Description" = true) := by
    simp [hne, hic, hid]
  simp only [processLine, htrim, if_neg hnot]

/-- Claim C5: tiers are tried in fixed priority order per line; whenever the
general tabular tier matches and validates, its item is the one emitted,
regardless of any fuel-tier shape also matching the line. -/
theorem claim5_priority (line : String) (it : LineItem)
    (htrim : pyStrip line = line)
    (hne : ¬ line = "")
    (hic : hasSub line "Item Code" = false)
    (hid : hasSub line "Item Description" = false)
    (hfuel : exprGroups line ≠ none ∨ exprAltGroups line ≠ none ∨ legacyGroups line ≠ none)
    (h1 : tier1 line = TierRes.emit it) :
    processLine line = .ok (some it) := by
  rw [processLine_eq line htrim hne hic hid, h1]
  rfl

/-- Witness for C5: a line matching both the general shape and the legacy
fuel shape; the general tier's item wins. -/
theorem claim5_wit : processLine "AB : EL CD 2 3.00 0.50 6.00" =
    .ok (some ⟨"AB", ": EL CD", mkRat 2 1, "", mkRat 300 100, mkRat 50 100, mkRat 600 100⟩) :=
  claim5_priority "AB : EL CD 2 3.00 0.50 6.00"
    ⟨"AB", ": EL CD", mkRat 2 1, "", mkRat 300 100, mkRat 50 100, mkRat 600 100⟩
    rfl (by decide) rfl rfl (Or.inr (Or.inr (by decide))) rfl

/-- The legacy tier, once its groups, conversions and keyword gate are fixed,
emits the item selected by the three-ordering cascade with default. -/
theorem tier3_eq (line d s1 s2 s3 : String) (v1 v2 v3 : ℚ)
    (hm : legacyGroups line = some (d, s1, s2, s3))
    (hv1 : pyFloat (stripCommas s1) = some v1)
    (hv2 : pyFloat (stripCommas s2) = some v2)
    (hv3 : pyFloat (stripCommas s3) = some v3)
    (hkw : hasFuelKeyword (pyStrip d) = true) :
    tier3 line = TierRes.emit (
      if |v3 - v1 * v2| < v3 * (1 / 100) then ⟨"", pyStrip d, v1, "", v2, 0, v3⟩
      else if |v1 - v2 * v3| < v1 * (1 / 100) then ⟨"", pyStrip d, v2, "", v3, 0, v1⟩
      else if |v2 - v1 * v3| < v2 * (1 / 100) then ⟨"", pyStrip d, v1, "", v3, 0, v2⟩
      else ⟨"", pyStrip d, v1, "", v2, 0, v3⟩) := by
  unfold tier3
  simp only [hm, hv1, hv2, hv3, hkw, if_true]
  simp only [pyAbs_eq, rSub_eq, rMul_eq, mkRat_one_hundred]
  by_cases hc1 : |v3 - v1 * v2| < v3 * (1 / 100)
  · rw [if_pos hc1, if_pos hc1]
  · rw [if_neg hc1, if_neg hc1]
    by_cases hc2 : |v1 - v2 * v3| < v1 * (1 / 100)
    · rw [if_pos hc2, if_pos hc2]
    · rw [if_neg hc2, if_neg hc2]
      by_cases hc3 : |v2 - v1 * v3| < v2 * (1 / 100)
      · rw [if_pos hc3, if_pos hc3]
      · rw [if_neg hc3, if_neg hc3]

/-- Claim C2: a line reaching the legacy fallback tier, matching its loose
shape with three convertible numeric fields and passing the fuel-keyword
gate, always yields an item: the orderings `(v1,v2→v3)`, `(v2,v3→v1)`,
`(v1,v3→v2)` are tried in that priority against `total = qty*price` with 1%
tolerance, and ordering (a) is used as the default when none holds. -/
theorem claim2_legacy (line d s1 s2 s3 : String) (v1 v2 v3 : ℚ)
    (htrim : pyStrip line = line)
    (hne : ¬ line = "")
    (hic : hasSub line "Item Code" = false)
    (hid : hasSub line "Item Description" = false)
    (h1 : tier1 line = TierRes.fall)
    (h2 : tier2 line = TierRes.fall)
    (h2b : tier2b line = TierRes.fall)
    (hm : legacyGroups line = some (d, s1, s2, s3))
    (hv1 : pyFloat (stripCommas s1) = some v1)
    (hv2 : pyFloat (stripCommas s2) = some v2)
    (hv3 : pyFloat (stripCommas s3) = some v3)
    (hkw : hasFuelKeyword (pyStrip d) = true) :
    processLine line = .ok (some (
      if |v3 - v1 * v2| < v3 * (1 / 100) then ⟨"", pyStrip d, v1, "", v2, 0, v3⟩
      else if |v1 - v2 * v3| < v1 * (1 / 100) then ⟨"", pyStrip d, v2, "", v3, 0, v1⟩
      else if |v2 - v1 * v3| < v2 * (1 / 100) then ⟨"", pyStrip d, v1, "", v3, 0, v2⟩
      else ⟨"", pyStrip d, v1, "", v2, 0, v3⟩)) := by
  rw [processLine_eq line htrim hne hic hid, h1, h2, h2b,
    tier3_eq line d s1 s2 s3 v1 v2 v3 hm hv1 hv2 hv3 hkw]
  rfl

/-- Witness for C2: `"DIESEL 2.00 3.00 6.00"` reaches the legacy tier and
ordering (a) holds exactly. -/
theorem claim2_wit : processLine "DIESEL 2.00 3.00 6.00" =
    .ok (some ⟨"", "DIESEL", mkRat 200 100, "", mkRat 300 100, 0, mkRat 600 100⟩) := by
  have h := claim2_legacy "DIESEL 2.00 3.00 6.00" "DIESEL" "2.00" "3.00" "6.00"
    (mkRat 200 100) (mkRat 300 100) (mkRat 600 100)
    rfl (by decide) rfl rfl rfl rfl rfl rfl rfl rfl rfl rfl
  rw [h, if_pos (by norm_num [Rat.mkRat_eq_div])]
  rfl

/-- Claim C4: the line `"A100 Widget Assembly 10 5.00 1.50 51.50"` is claimed
by the general tabular tier with exactly the stated fields, and in general a
six-field match is accepted exactly when
`abs(total - quantity*price) < 0.10 * (quantity*price)`. -/
theorem claim4_general :
    extract_line_items "A100 Widget Assembly 10 5.00 1.50 51.50" =
      .ok [⟨"A100", "Widget Assembly", mkRat 10 1, "", mkRat 500 100, mkRat 150 100,
        mkRat 5150 100⟩]
    ∧ ∀ (line c d g3 g4 g5 g6 : String) (q p tx tt : ℚ),
        generalGroups line = some (c, d, g3, g4, g5, g6) →
        pyFloat (stripCommas g3) = some q →
        pyFloat (stripCommas g4) = some p →
        pyFloat (stripCommas g5) = some tx →
        pyFloat (stripCommas g6) = some tt →
        tier1 line = (if |tt - q * p| < (q * p) * (1 / 10)
          then TierRes.emit ⟨c, pyStrip d, q, "", p, tx, tt⟩ else TierRes.fall) := by
  refine ⟨rfl, ?_⟩
  intro line c d g3 g4 g5 g6 q p tx tt hm hq hp htx htt
  unfold tier1
  simp only [hm, hq, hp, htx, htt]
  simp only [pyAbs_eq, rSub_eq, rMul_eq, mkRat_one_ten]

/-- Witness for C4's validation form at the scenario line. -/
theorem claim4_wit : tier1 "A100 Widget Assembly 10 5.00 1.50 51.50" =
    TierRes.emit ⟨"A100", "Widget Assembly", mkRat 10 1, "", mkRat 500 100, mkRat 150 100,
      mkRat 5150 100⟩ := by
  have h := claim4_general.2 "A100 Widget Assembly 10 5.00 1.50 51.50" "A100" "Widget Assembly"
    "10" "5.00" "1.50" "51.50" (mkRat 10 1) (mkRat 500 100) (mkRat 150 100) (mkRat 5150 100)
    rfl rfl rfl rfl rfl
  rw [h, if_pos (by norm_num [Rat.mkRat_eq_div, abs_lt])]
  rfl

set_option maxRecDepth 8000 in
/-- Claim C3: the line
`"LSD : EL LOW SULPHUR DIESEL : EL 20,049.00 24.1264 483,710.19"` is claimed
by the primary fuel tier with exactly the stated fields, and in general a
primary-fuel match is accepted exactly when
`abs(quantity*price - total) < max(0.01*total, 0.01)`. -/
theorem claim3_express :
    extract_line_items "LSD : EL LOW SULPHUR DIESEL : EL 20,049.00 24.1264 483,710.19" =
      .ok [⟨"LSD : EL", "LOW SULPHUR DIESEL : EL", mkRat 2004900 100, "", mkRat 241264 10000,
        0, mkRat 48371019 100⟩]
    ∧ ∀ (line g1 g2 g3 g4 g5 : String) (q p t : ℚ),
        exprGroups line = some (g1, g2, g3, g4, g5) →
        pyFloat (stripCommas g3) = some q →
        pyFloat (stripCommas g4) = some p →
        pyFloat (stripCommas g5) = some t →
        tier2 line = (if |q * p - t| < max (t * (1 / 100)) (1 / 100)
          then TierRes.emit ⟨pyStrip g1, pyStrip g2, q, "", p, 0, t⟩ else TierRes.fall) := by
  refine ⟨rfl, ?_⟩
  intro line g1 g2 g3 g4 g5 q p t hm hq hp ht
  unfold tier2
  simp only [hm, hq, hp, ht]
  simp only [pyAbs_eq, rSub_eq, rMul_eq, pyMax_eq, mkRat_one_hundred]

set_option maxRecDepth 8000 in
/-- Witness for C3's validation form at the scenario line. -/
theorem claim3_wit :
    tier2 "LSD : EL LOW SULPHUR DIESEL : EL 20,049.00 24.1264 483,710.19" =
    TierRes.emit ⟨"LSD : EL", "LOW SULPHUR DIESEL : EL", mkRat 2004900 100, "",
      mkRat 241264 10000, 0, mkRat 48371019 100⟩ := by
  have h := claim3_express.2 "LSD : EL LOW SULPHUR DIESEL : EL 20,049.00 24.1264 483,710.19"
    "LSD : EL" "LOW SULPHUR DIESEL : EL" "20,049.00" "24.1264" "483,710.19"
    (mkRat 2004900 100) (mkRat 241264 10000) (mkRat 48371019 100)
    rfl rfl rfl rfl
  rw [h, if_pos (by norm_num [Rat.mkRat_eq_div, abs_lt])]
  rfl

/-- Claim C8: header extraction takes the first `DD-DD-DDDD` date, the first
`INV<digits>` reference, and the first comma-stripped totals after the
`Total (Excl)` / `Total (Incl)` anchors; absent anchors give empty strings
and zeros, never an error.  In particular the stated scenario text yields
date `15-03-2024`, reference `INV00987` and totals `1234.56` / `1407.40`. -/
theorem claim8_header :
    parse_invoice_data
      "Invoice INV00987 dated 15-03-2024\nTotal (Excl) 1,234.56\nTotal (Incl) 1,407.40"
      "f.pdf" =
      some ⟨"f.pdf", "15-03-2024", "INV00987", mkRat 123456 100, mkRat 140740 100, []⟩
    ∧ parse_invoice_data "hello world" "g.pdf" = some ⟨"g.pdf", "", "", 0, 0, []⟩
    ∧ (∀ text fn rec, parse_invoice_data text fn = some rec →
        rec.date = searchDate text ∧ rec.our_reference = searchRef text)
    ∧ (∀ text : String, reSearch dateRe text.toList = none → searchDate text = "")
    ∧ (∀ text : String, reSearch refRe text.toList = none → searchRef text = "")
    ∧ (∀ anchor text : String, reSearch (totalRe anchor) text.toList = none →
        searchTotal anchor text = some 0) := by
  refine ⟨rfl, rfl, ?_, ?_, ?_, ?_⟩
  · intro text fn rec h
    unfold parse_invoice_data at h
    rcases he : searchTotal "Total (Excl)" text with _ | te <;> rw [he] at h
    · simp at h
    · rcases hi : searchTotal "Total (Incl)" text with _ | ti <;> rw [hi] at h
      · simp at h
      · rcases hx : extract_line_items text with e | items <;> rw [hx] at h
        · simp at h
        · simp only [Option.some.injEq] at h
          subst h
          exact ⟨rfl, rfl⟩
  · intro text h
    unfold searchDate
    rw [h]
  · intro text h
    unfold searchRef
    rw [h]
  · intro anchor text h
    unfold searchTotal
    rw [h]

/-- Witness for C8's absent-anchor defaults at a concrete text. -/
theorem claim8_wit : searchDate "hello world" = "" ∧
    searchTotal "Total (Excl)" "hello world" = some 0 :=
  ⟨claim8_header.2.2.2.1 "hello world" rfl,
   claim8_header.2.2.2.2.2 "Total (Excl)" "hello world" rfl⟩
